import Mathlib

/-!
# Verification of the mic disk/loopback mount subsystem

Shallow embedding of `mic/utils/fs_related.py`, `mic/chroot.py` and the
label handling of `mic/imager/loop.py`, together with theorems settling the
frozen claims about this code.

External tools (`resize2fs`, `mount`, `umount`, `losetup`, `dmsetup`,
`fuser`, ...) are modelled by environment records that fix their observable
behaviour (return codes, reported state); the Python control flow around
them is translated faithfully.
-/

namespace Mic

/-! ## ExtDiskMount: backing-file sizes, resize and resparse

`ExtDiskMount` (fs_related.py lines 419-526) manages an ext filesystem on a
`SparseLoopbackDisk`.  The state tracks the sizes relevant to `resparse`:

* `fileSize`  — current size of the backing sparse file (`os.stat(...)[ST_SIZE]`);
* `diskSize`  — the disk's declared size `self.disk.size`;
* `blocksize` / `blockCount` — `self.blocksize` and the "Block count" field
  parsed from `dumpe2fs -h` (`__get_size_from_filesystem`);
* `fsMin`     — abstract property of the filesystem contents: the smallest
  size `resize2fs` can shrink it to.  A call `resize2fs(fs, t)` with `t > 0`
  exits 0 iff `fsMin ≤ t`; `resize2fs(fs, 0)` runs `resize2fs -M`
  (minimise), which exits 0.  `resize2fs` never changes the size of the
  backing file itself.
-/

structure ExtDiskMountState where
  fileSize : Nat
  diskSize : Nat
  blocksize : Nat
  blockCount : Nat
  fsMin : Nat
  deriving Repr, DecidableEq

/-- `ExtDiskMount.__get_size_from_filesystem` (lines 495-497):
`"Block count" from dumpe2fs * self.blocksize`. -/
def getSizeFromFilesystem (st : ExtDiskMountState) : Nat :=
  st.blockCount * st.blocksize

/-- Return code of `resize2fs(fs, size)` (lines 83-89): `size == 0` runs
`resize2fs -M` (minimise, succeeds); otherwise the resize succeeds iff the
target is at least the filesystem's minimal supportable size. -/
def resize2fsRC (fsMin target : Nat) : Nat :=
  if target = 0 then 0
  else if fsMin ≤ target then 0 else 1

/-- `SparseLoopbackDisk.truncate(size)` (lines 323-330): `os.ftruncate` sets
the backing file to exactly `size`. -/
def diskTruncate (st : ExtDiskMountState) (size : Nat) : ExtDiskMountState :=
  { st with fileSize := size }

/-- `SparseLoopbackDisk.expand(create, size)` (lines 303-321): seeks to
`size - 1` (defaulting to `self.size`) and writes one byte, so the file
grows to `size` if it was smaller and is otherwise unchanged. -/
def diskExpand (st : ExtDiskMountState) (sizeArg : Option Nat) : ExtDiskMountState :=
  { st with fileSize := max st.fileSize (sizeArg.getD st.diskSize) }

/-- The `while top != (bot + 1)` loop of `ExtDiskMount.__resize_to_minimal`
(lines 506-515), with an explicit fuel argument (`none` models
non-termination of the Python loop).  Each iteration computes
`t = bot + (top - bot) / 2` (the `int(t)` conversions truncate the Python 3
float division, which is exact for sizes below 2^53, so Nat division
matches) and makes one `resize2fs` attempt: exit code 0 lowers `top` to
`t`, a failure raises `bot` to `t`.  Returns the final `top` together with
the number of resize attempts made. -/
def searchLoop (fsMin : Nat) : Nat → Nat → Nat → Option (Nat × Nat)
  | 0, _, _ => none
  | fuel + 1, bot, top =>
    if top = bot + 1 then some (top, 0)
    else
      if resize2fsRC fsMin (bot + (top - bot) / 2) = 0 then
        (searchLoop fsMin fuel bot (bot + (top - bot) / 2)).map (fun p => (p.1, p.2 + 1))
      else
        (searchLoop fsMin fuel (bot + (top - bot) / 2) top).map (fun p => (p.1, p.2 + 1))

/-- `ExtDiskMount.__resize_to_minimal` (lines 499-515): `bot = 0`,
`top = __get_size_from_filesystem()`, then the binary-search loop.  The
fuel `top + 1` is ample (the gap shrinks every iteration); the `0` default
is only reached when the Python loop would not terminate. -/
def resizeToMinimal (st : ExtDiskMountState) : Nat :=
  match searchLoop st.fsMin (getSizeFromFilesystem st + 1) 0 (getSizeFromFilesystem st) with
  | some p => p.1
  | none => 0

/-- `ExtDiskMount.__resize_filesystem(size)` (lines 458-473).  `size = none`
means `self.disk.size`.  If the target exceeds the current file size the
code calls `self.disk.expand(size)` — positionally this binds `expand`'s
`create` parameter, so `expand` grows the file to its default `self.size`
(the declared disk size), not to `size`.  The trailing `__fsck()` and
`resize2fs` calls do not change the size of the backing file. -/
def resizeFilesystem (st : ExtDiskMountState) (sizeArg : Option Nat) : ExtDiskMountState :=
  let currentSize := st.fileSize
  let size := sizeArg.getD st.diskSize
  if size = currentSize then st
  else if currentSize < size then diskExpand st none
  else st

/-- `ExtDiskMount.resparse(size)` (lines 517-526).  `cleanup()` (unmount +
`losetup -d`) does not touch the backing file.  With `size == 0` the code
skips both the minimal-size search and the `truncate` call; otherwise it
truncates the file to the minimal size and re-runs `__resize_filesystem`.
Returns the new state together with `minsize`. -/
def resparse (st : ExtDiskMountState) (sizeArg : Option Nat) : ExtDiskMountState × Nat :=
  if sizeArg = some 0 then
    (resizeFilesystem st sizeArg, 0)
  else
    let minsize := resizeToMinimal st
    (resizeFilesystem (diskTruncate st minsize) sizeArg, minsize)

/-! ### Correctness of the binary search -/

theorem searchLoop_correct (m : Nat) (hm : 0 < m) :
    ∀ fuel bot top, bot < m → m ≤ top → top - bot ≤ fuel →
      ∃ n, searchLoop m fuel bot top = some (m, n) ∧ n ≤ Nat.clog 2 (top - bot) := by
  intro fuel
  induction fuel with
  | zero => intro bot top h1 h2 h3; omega
  | succ fuel ih =>
    intro bot top h1 h2 h3
    by_cases htop : top = bot + 1
    · subst htop
      have hmtop : m = bot + 1 := by omega
      exact ⟨0, by simp [searchLoop, hmtop], Nat.zero_le _⟩
    · have hgap : bot + 2 ≤ top := by omega
      have ht0 : bot + (top - bot) / 2 ≠ 0 := by omega
      by_cases hmid : m ≤ bot + (top - bot) / 2
      · have hrc : resize2fsRC m (bot + (top - bot) / 2) = 0 := by
          simp [resize2fsRC, ht0, hmid]
        obtain ⟨n, hn, hb⟩ := ih bot (bot + (top - bot) / 2) h1 hmid (by omega)
        refine ⟨n + 1, ?_, ?_⟩
        · simp only [searchLoop, if_neg htop, if_pos hrc, hn]
          rfl
        · have h2le : 2 ≤ top - bot := by omega
          have hmono : Nat.clog 2 (bot + (top - bot) / 2 - bot) ≤
              Nat.clog 2 ((top - bot + 1) / 2) :=
            Nat.clog_mono_right 2 (by omega)
          have hstep : Nat.clog 2 (top - bot) =
              Nat.clog 2 ((top - bot + 2 - 1) / 2) + 1 :=
            Nat.clog_of_two_le (by norm_num) h2le
          have : (top - bot + 2 - 1) / 2 = (top - bot + 1) / 2 := by omega
          rw [this] at hstep
          omega
      · have hrc : resize2fsRC m (bot + (top - bot) / 2) = 1 := by
          simp [resize2fsRC, ht0, hmid]
        obtain ⟨n, hn, hb⟩ :=
          ih (bot + (top - bot) / 2) top (by omega) h2 (by omega)
        refine ⟨n + 1, ?_, ?_⟩
        · simp only [searchLoop, if_neg htop, hrc, hn]
          norm_num
        · have h2le : 2 ≤ top - bot := by
            omega
          have heq : top - (bot + (top - bot) / 2) = (top - bot + 1) / 2 := by
            omega
          rw [heq] at hb
          have hstep : Nat.clog 2 (top - bot) =
              Nat.clog 2 ((top - bot + 2 - 1) / 2) + 1 :=
            Nat.clog_of_two_le (by norm_num) h2le
          have : (top - bot + 2 - 1) / 2 = (top - bot + 1) / 2 := by omega
          rw [this] at hstep
          omega

/-- C2: the ext minimal-size binary search, started from `bot = 0` and
`top0 = block count * blocksize`, returns exactly the minimal supportable
size within `ceil(log2 top0)` resize attempts; one search step from any
state satisfying `bot < minimal ≤ top` keeps the invariant (a successful
resize to the midpoint lowers `top`, a failed one raises `bot`). -/
theorem ext_resize_to_minimal_search (m top0 : Nat) (h1 : 0 < m) (h2 : m ≤ top0) :
    (∃ n, searchLoop m (top0 + 1) 0 top0 = some (m, n) ∧ n ≤ Nat.clog 2 top0)
    ∧ (∀ bot top, bot < m → m ≤ top → bot + 1 < top →
        (resize2fsRC m (bot + (top - bot) / 2) = 0 →
            bot < m ∧ m ≤ bot + (top - bot) / 2)
        ∧ (resize2fsRC m (bot + (top - bot) / 2) ≠ 0 →
            bot + (top - bot) / 2 < m ∧ m ≤ top)) := by
  constructor
  · obtain ⟨n, hn, hb⟩ := searchLoop_correct m h1 (top0 + 1) 0 top0 h1 h2 (by omega)
    exact ⟨n, hn, by simpa using hb⟩
  · intro bot top hb ht hgap
    have ht0 : bot + (top - bot) / 2 ≠ 0 := by omega
    constructor
    · intro hrc
      refine ⟨hb, ?_⟩
      by_contra hlt
      simp [resize2fsRC, ht0, hlt] at hrc
    · intro hrc
      refine ⟨?_, ht⟩
      by_contra hge
      have hm2 : m ≤ bot + (top - bot) / 2 := by omega
      simp [resize2fsRC, ht0, hm2] at hrc

/-- C2 witness: minimal size 2 inside an 4-byte filesystem is found in
2 = ceil(log2 4) attempts. -/
theorem ext_resize_to_minimal_search_witness :
    (0 < 2 ∧ 2 ≤ 4) ∧
    ((∃ n, searchLoop 2 (4 + 1) 0 4 = some (2, n) ∧ n ≤ Nat.clog 2 4)
     ∧ (∀ bot top, bot < 2 → 2 ≤ top → bot + 1 < top →
        (resize2fsRC 2 (bot + (top - bot) / 2) = 0 →
            bot < 2 ∧ 2 ≤ bot + (top - bot) / 2)
        ∧ (resize2fsRC 2 (bot + (top - bot) / 2) ≠ 0 →
            bot + (top - bot) / 2 < 2 ∧ 2 ≤ top))) :=
  ⟨⟨by decide, by decide⟩, ext_resize_to_minimal_search 2 4 (by decide) (by decide)⟩

/-- Under the standing assumptions (the filesystem has a positive minimal
size not exceeding its own size), `__resize_to_minimal` returns exactly
that minimal size. -/
theorem resizeToMinimal_eq (st : ExtDiskMountState) (h1 : 0 < st.fsMin)
    (h2 : st.fsMin ≤ getSizeFromFilesystem st) :
    resizeToMinimal st = st.fsMin := by
  obtain ⟨n, hn, -⟩ :=
    searchLoop_correct st.fsMin h1 (getSizeFromFilesystem st + 1) 0
      (getSizeFromFilesystem st) h1 h2 (by omega)
  unfold resizeToMinimal
  rw [hn]

/-- C1 (amended): `resparse(None)` round-trips the backing file to exactly
the declared size `S` (shrink to minimal, truncate, regrow), provided the
filesystem's minimal size is positive and its size `block count *
blocksize` does not exceed `S`.  `resparse(0)`, however, never truncates:
the `size == 0` branch skips both the minimal-size search and
`disk.truncate`, and `__resize_filesystem(0)` only runs `resize2fs -M`,
which does not change the backing file, so the file stays at its prior
size. -/
theorem resparse_file_sizes (st st0 : ExtDiskMountState)
    (h1 : 0 < st.fsMin) (h2 : st.fsMin ≤ getSizeFromFilesystem st)
    (h3 : getSizeFromFilesystem st ≤ st.diskSize) :
    (resparse st none).1.fileSize = st.diskSize
    ∧ (resparse st none).2 = st.fsMin
    ∧ (resparse st0 (some 0)).1.fileSize = st0.fileSize
    ∧ (resparse st0 (some 0)).2 = 0 := by
  have hmin : resizeToMinimal st = st.fsMin := resizeToMinimal_eq st h1 h2
  have hfsle : st.fsMin ≤ st.diskSize := le_trans h2 h3
  refine ⟨?_, ?_, ?_, ?_⟩
  · show (resizeFilesystem (diskTruncate st (resizeToMinimal st)) none).fileSize = st.diskSize
    rw [hmin]
    unfold resizeFilesystem diskTruncate diskExpand
    by_cases heq : st.diskSize = st.fsMin
    · simp [heq]
    · have hlt : st.fsMin < st.diskSize := lt_of_le_of_ne hfsle (fun h => heq h.symm)
      simp [heq, hlt, Nat.max_eq_right (le_of_lt hlt)]
  · show resizeToMinimal st = st.fsMin
    exact hmin
  · show (resizeFilesystem st0 (some 0)).fileSize = st0.fileSize
    unfold resizeFilesystem diskExpand
    by_cases heq : (0 : Nat) = st0.fileSize
    · simp [heq.symm]
    · simp [show ((some 0 : Option Nat).getD st0.diskSize) = 0 from rfl, heq,
        Nat.not_lt_zero]
  · rfl

/-- C1 witness: a 3-block, 1 KiB-block filesystem with minimal size 1024
on a disk declared at 4096 bytes (and a second state for the `some 0`
conjuncts). -/
theorem resparse_file_sizes_witness :
    (resparse ⟨4096, 4096, 1024, 3, 1024⟩ none).1.fileSize = 4096
    ∧ (resparse ⟨4096, 4096, 1024, 3, 1024⟩ none).2 = 1024
    ∧ (resparse ⟨4096, 4096, 1024, 3, 1024⟩ (some 0)).1.fileSize = 4096
    ∧ (resparse ⟨4096, 4096, 1024, 3, 1024⟩ (some 0)).2 = 0 :=
  resparse_file_sizes ⟨4096, 4096, 1024, 3, 1024⟩ ⟨4096, 4096, 1024, 3, 1024⟩
    (by decide) (by decide) (by decide)

/-- C1 counterexample: on a disk whose filesystem has minimal supportable
size 1024 (as the code's own binary search computes), `resparse(0)` leaves
the backing file at its full prior size 4096, not truncated to 1024. -/
theorem resparse_zero_not_truncated :
    (resparse ⟨4096, 4096, 1024, 3, 1024⟩ (some 0)).1.fileSize = 4096
    ∧ resizeToMinimal ⟨4096, 4096, 1024, 3, 1024⟩ = 1024
    ∧ (4096 : Nat) ≠ 1024 := by
  refine ⟨rfl, ?_, by decide⟩
  decide

/-! ## DiskMount / LoopbackDisk lifecycle (fs_related.py lines 272-417)

Observable actions of the external tools are recorded as events; the
environment fixes the tools' return codes and the loop allocator's
outcome. -/

inductive MountEv
  | losetupAdd (dev : Nat)
  | losetupDel (dev : Nat)
  | mkdirMountdir
  | syncCall
  | mountSyscall
  | umountSyscall
  | rmdirMountdir
  deriving Repr, DecidableEq

structure LoopbackDiskState where
  device : Option Nat
  deriving Repr, DecidableEq

structure DiskMountState where
  disk : LoopbackDiskState
  mounted : Bool
  rmdir : Bool
  rmmountdir : Bool
  mountdirIsDir : Bool
  deriving Repr, DecidableEq

structure MountEnv where
  loopAlloc : Option Nat
  mountRC : Nat
  umountRC : Nat
  rmdirOk : Bool
  deriving Repr, DecidableEq

/-- `LoopbackDisk.create` (lines 285-289): no-op when already bound,
otherwise `get_loop_device` either yields a device or raises `MountError`. -/
def loopbackDiskCreate (env : MountEnv) (d : LoopbackDiskState) :
    Except String (LoopbackDiskState × List MountEv) :=
  match d.device with
  | some _ => Except.ok (d, [])
  | none =>
    match env.loopAlloc with
    | some dev => Except.ok (⟨some dev⟩, [MountEv.losetupAdd dev])
    | none => Except.error "Failed to allocate loop device"

/-- `LoopbackDisk.cleanup` (lines 291-296): no-op when unbound; otherwise
runs `losetup -d` (its return code is ignored) and clears the binding.
Never raises. -/
def loopbackDiskCleanup (d : LoopbackDiskState) : LoopbackDiskState × List MountEv :=
  match d.device with
  | none => (d, [])
  | some dev => (⟨none⟩, [MountEv.losetupDel dev])

/-- Tail of `DiskMount.unmount` (lines 381-386): remove the mount directory
if this object created it and nothing is mounted; `os.rmdir` failures are
swallowed. -/
def diskMountRmdirStep (env : MountEnv) (st : DiskMountState) (evs : List MountEv) :
    DiskMountState × List MountEv :=
  if st.rmdir && !st.mounted then
    ({ st with rmdir := false,
               mountdirIsDir := if env.rmdirOk then false else st.mountdirIsDir },
     evs ++ [MountEv.rmdirMountdir])
  else (st, evs)

/-- `DiskMount.unmount` (lines 372-386): when mounted, `sync` then
`umount -l`; a non-zero return code raises `MountError` (before the rmdir
step), success clears `mounted`. -/
def diskMountUnmount (env : MountEnv) (st : DiskMountState) :
    Except String (DiskMountState × List MountEv) :=
  if st.mounted then
    if env.umountRC = 0 then
      Except.ok (diskMountRmdirStep env { st with mounted := false }
        [MountEv.syncCall, MountEv.umountSyscall])
    else Except.error "Failed to umount"
  else Except.ok (diskMountRmdirStep env st [])

/-- `DiskMount.mount` (lines 393-417): returns immediately when already
mounted; otherwise creates the mount directory if missing (remembering
`rmdir`), creates the disk, and runs the `mount` command, raising
`MountError` on a non-zero return code. -/
def diskMountMount (env : MountEnv) (st : DiskMountState) :
    Except String (DiskMountState × List MountEv) :=
  if st.mounted then Except.ok (st, [])
  else
    let st1 := if st.mountdirIsDir then st
               else { st with mountdirIsDir := true, rmdir := st.rmmountdir }
    let evs1 := if st.mountdirIsDir then ([] : List MountEv) else [MountEv.mkdirMountdir]
    match loopbackDiskCreate env st1.disk with
    | Except.error e => Except.error e
    | Except.ok (disk, evs2) =>
      if env.mountRC = 0 then
        Except.ok ({ st1 with disk := disk, mounted := true },
                   evs1 ++ evs2 ++ [MountEv.mountSyscall])
      else Except.error "Failed to mount"

/-- `DiskMount.cleanup` (lines 368-370): `unmount()` then `disk.cleanup()`. -/
def diskMountCleanup (env : MountEnv) (st : DiskMountState) :
    Except String (DiskMountState × List MountEv) :=
  match diskMountUnmount env st with
  | Except.error e => Except.error e
  | Except.ok (st1, evs) =>
    let (disk, evs2) := loopbackDiskCleanup st1.disk
    Except.ok ({ st1 with disk := disk }, evs ++ evs2)

theorem diskMountRmdirStep_disk (env : MountEnv) (st : DiskMountState)
    (evs : List MountEv) :
    (diskMountRmdirStep env st evs).1.disk = st.disk := by
  unfold diskMountRmdirStep
  split <;> rfl

/-- C3: `mount()` on an already-mounted `DiskMount` is a no-op — the state
is unchanged and no external command runs (so no second mount-table entry
and no second format); and once nothing is mounted and the loop device is
released, `unmount()` and `cleanup()` always succeed (never raise) and
leave the device released, whatever the environment does. -/
theorem diskmount_lifecycle_idempotent (env env2 : MountEnv) (st st2 : DiskMountState)
    (hm : st.mounted = true) (h1 : st2.mounted = false) (h2 : st2.disk.device = none) :
    diskMountMount env st = Except.ok (st, [])
    ∧ (∃ r, diskMountUnmount env2 st2 = Except.ok r)
    ∧ (∃ r, diskMountCleanup env2 st2 = Except.ok r ∧ r.1.disk.device = none) := by
  have hun : diskMountUnmount env2 st2 = Except.ok (diskMountRmdirStep env2 st2 []) := by
    simp [diskMountUnmount, h1]
  have hdisk : (diskMountRmdirStep env2 st2 []).1.disk = st2.disk :=
    diskMountRmdirStep_disk env2 st2 []
  have hlc : loopbackDiskCleanup st2.disk = (st2.disk, []) := by
    unfold loopbackDiskCleanup
    rw [h2]
  refine ⟨by simp [diskMountMount, hm], ⟨diskMountRmdirStep env2 st2 [], hun⟩, ?_⟩
  unfold diskMountCleanup
  rw [hun]
  refine ⟨_, rfl, ?_⟩
  show ((loopbackDiskCleanup (diskMountRmdirStep env2 st2 []).1.disk).1).device = none
  rw [hdisk, hlc]
  exact h2

/-- C3 witness: a mounted state for the no-op conjunct and a fully
released state for the never-raises conjuncts. -/
theorem diskmount_lifecycle_idempotent_witness :
    diskMountMount ⟨some 7, 0, 0, true⟩ ⟨⟨some 7⟩, true, false, true, true⟩ =
      Except.ok (⟨⟨some 7⟩, true, false, true, true⟩, [])
    ∧ (∃ r, diskMountUnmount ⟨some 7, 0, 0, true⟩ ⟨⟨none⟩, false, false, true, true⟩ =
        Except.ok r)
    ∧ (∃ r, diskMountCleanup ⟨some 7, 0, 0, true⟩ ⟨⟨none⟩, false, false, true, true⟩ =
        Except.ok r ∧ r.1.disk.device = none) :=
  diskmount_lifecycle_idempotent ⟨some 7, 0, 0, true⟩ ⟨some 7, 0, 0, true⟩
    ⟨⟨some 7⟩, true, false, true, true⟩ ⟨⟨none⟩, false, false, true, true⟩
    rfl rfl rfl

/-! ## BindChrootMount and chroot teardown (fs_related.py lines 108-156,
chroot.py lines 220-272)

`my_fuser` on `<root>/.chroot.lock` is the same probe in
`BindChrootMount.has_chroot_instance` and in `cleanup_chrootenv`; its
outcome is the environment flag `fuserLock`.  `procMounts` is the set of
mount targets listed in `/proc/mounts`. -/

structure BindMount where
  src : String
  dest : String
  deriving Repr, DecidableEq

structure ChrootEnv where
  fuserLock : Bool
  procMounts : List String
  deriving Repr, DecidableEq

/-- `BindChrootMount.ismounted` (lines 123-129): the destination appears as
a mount target in `/proc/mounts`. -/
def bindIsMounted (env : ChrootEnv) (b : BindMount) : Bool :=
  env.procMounts.contains b.dest

/-- Commands run by `BindChrootMount.unmount` (lines 150-156): nothing at
all while `has_chroot_instance()` reports an active chroot session holding
`<root>/.chroot.lock`; otherwise `umount -l <dest>` if mounted. -/
def bindUnmountCmds (env : ChrootEnv) (b : BindMount) : List String :=
  if env.fuserLock then []
  else if bindIsMounted env b then [b.dest] else []

/-- `cleanup_chrootenv.bind_unmount` (chroot.py lines 223-227): reverses
the list, then unmounts each entry. -/
def bind_unmount (env : ChrootEnv) (ms : List BindMount) : List String :=
  ms.reverse.flatMap (bindUnmountCmds env)

/-- Observable steps of `cleanup_chrootenv` (chroot.py lines 220-272). -/
inductive ChrootEv
  | closeLockFd
  | umountBind (dest : String)
  | rmParentroot
  | truncateResolv
  | killProcs
  | rmBindMountDirs
  deriving Repr, DecidableEq

/-- `cleanup_chrootenv` (chroot.py lines 261-272): close the lock fd,
`bind_unmount` all mounts, and only when `my_fuser` finds no other holder
of the lock: remove `parentroot` if empty, blank `resolv.conf` and kill
processes rooted in the chroot; finally `cleanup_mountdir` for the
caller-declared bind mounts. -/
def cleanup_chrootenv (env : ChrootEnv) (parentrootEmpty : Bool)
    (hasBindmountsArg : Bool) (ms : List BindMount) : List ChrootEv :=
  [ChrootEv.closeLockFd]
  ++ (bind_unmount env ms).map ChrootEv.umountBind
  ++ (if env.fuserLock then []
      else (if parentrootEmpty then [ChrootEv.rmParentroot] else [])
           ++ [ChrootEv.truncateResolv, ChrootEv.killProcs])
  ++ (if hasBindmountsArg then [ChrootEv.rmBindMountDirs] else [])

/-- C5 counterexample: with a second `/bin/bash` holder of `.chroot.lock`
(`fuserLock = true`), teardown of a session with one mounted bind mount
issues no unmount at all — `BindChrootMount.unmount` returns early — so
the claim that bind-unmounts still occur fails. -/
theorem chroot_teardown_lock_no_unmount :
    cleanup_chrootenv ⟨true, ["/var/tmp/root/proc"]⟩ true true
        [⟨"/proc", "/var/tmp/root/proc"⟩] =
      [ChrootEv.closeLockFd, ChrootEv.rmBindMountDirs]
    ∧ ChrootEv.umountBind "/var/tmp/root/proc" ∉
        cleanup_chrootenv ⟨true, ["/var/tmp/root/proc"]⟩ true true
          [⟨"/proc", "/var/tmp/root/proc"⟩] := by
  refine ⟨rfl, ?_⟩
  decide

/-- C5 (amended): when another holder of `.chroot.lock` is detected at
teardown, the destructive steps (killing processes, blanking resolv.conf,
removing `parentroot`) are indeed skipped, but the bind-unmounts are
skipped as well: every `BindChrootMount.unmount` returns early on its own
`has_chroot_instance` probe, so no unmount command runs. -/
theorem chroot_teardown_lock_held (env : ChrootEnv) (pe hb : Bool)
    (ms : List BindMount) (hf : env.fuserLock = true) :
    cleanup_chrootenv env pe hb ms =
      [ChrootEv.closeLockFd] ++ (if hb then [ChrootEv.rmBindMountDirs] else [])
    ∧ bind_unmount env ms = [] := by
  have hbu : bind_unmount env ms = [] := by
    unfold bind_unmount
    have : ∀ b, bindUnmountCmds env b = [] := by
      intro b; unfold bindUnmountCmds; rw [hf]; simp
    simp [this]
  refine ⟨?_, hbu⟩
  unfold cleanup_chrootenv
  rw [hf, hbu]
  simp

/-- C5 witness. -/
theorem chroot_teardown_lock_held_witness :
    cleanup_chrootenv ⟨true, ["/var/tmp/root/proc"]⟩ true true
        [⟨"/proc", "/var/tmp/root/proc"⟩] =
      [ChrootEv.closeLockFd] ++ (if true then [ChrootEv.rmBindMountDirs] else [])
    ∧ bind_unmount ⟨true, ["/var/tmp/root/proc"]⟩ [⟨"/proc", "/var/tmp/root/proc"⟩] = [] :=
  chroot_teardown_lock_held ⟨true, ["/var/tmp/root/proc"]⟩ true true
    [⟨"/proc", "/var/tmp/root/proc"⟩] rfl

/-! ## BtrfsDiskMount subvolumes (fs_related.py lines 618-922) -/

structure Subvolume where
  subvol : String
  mountpoint : String
  fsopts : String
  mounted : Bool
  deriving Repr, DecidableEq

/-- Body of the loop in `BtrfsDiskMount.__unmount_subvolumes` (lines
819-828): subvolumes mounted at `/` or not currently mounted are skipped;
otherwise `umount <mountdir><mountpoint>` runs, raising `MountError` on a
non-zero return code. -/
def unmountSubvolStep (umountRC : Nat) (mountdir : String) (acc : List String)
    (sv : Subvolume) : Except String (List String) :=
  if sv.mountpoint = "/" then Except.ok acc
  else if sv.mounted = false then Except.ok acc
  else if umountRC = 0 then Except.ok (acc ++ [mountdir ++ sv.mountpoint])
  else Except.error ("Failed to unmount subvolume " ++ sv.subvol)

/-- `BtrfsDiskMount.__unmount_subvolumes` (lines 817-830), as the sequence
of `umount` targets it issues: the loop runs `for subvol in
self.subvolumes`, i.e. in the order the subvolumes were set up.  (The
trailing `__create_subvolume_snapshots()` is a no-op here: no pending
snapshots.) -/
def unmountSubvolumesCmds (umountRC : Nat) (mountdir : String)
    (svs : List Subvolume) : Except String (List String) :=
  svs.foldlM (unmountSubvolStep umountRC mountdir) []

/-- `BtrfsDiskMount.unmount` (lines 901-903): `__unmount_subvolumes()`
first, then `DiskMount.unmount` of the base mount. -/
def btrfsUnmountCmds (umountRC : Nat) (mountdir : String) (baseMounted : Bool)
    (svs : List Subvolume) : Except String (List String) :=
  match unmountSubvolumesCmds umountRC mountdir svs with
  | Except.error e => Except.error e
  | Except.ok cmds =>
    if baseMounted then
      if umountRC = 0 then Except.ok (cmds ++ [mountdir])
      else Except.error "Failed to umount"
    else Except.ok cmds

theorem unmountSubvolStep_fold_ok (mountdir : String) :
    ∀ (svs : List Subvolume) (acc : List String),
      (∀ sv ∈ svs, sv.mounted = true ∧ sv.mountpoint ≠ "/") →
      List.foldlM (unmountSubvolStep 0 mountdir) acc svs =
        Except.ok (acc ++ svs.map (fun sv => mountdir ++ sv.mountpoint)) := by
  intro svs
  induction svs with
  | nil => intro acc _; simp; rfl
  | cons sv t ih =>
    intro acc h
    obtain ⟨hm, hr⟩ := h sv (by simp)
    have hstep : unmountSubvolStep 0 mountdir acc sv =
        Except.ok (acc ++ [mountdir ++ sv.mountpoint]) := by
      simp [unmountSubvolStep, hm, hr]
    simp only [List.foldlM_cons, hstep]
    rw [show ∀ (x : List String) (f : List String → Except String (List String)),
          (Except.ok x >>= f) = f x from fun _ _ => rfl]
    rw [ih (acc ++ [mountdir ++ sv.mountpoint]) (fun x hx => h x (by simp [hx]))]
    simp

theorem flatMap_eq_map_of_singleton {α β : Type} (f : α → List β) (g : α → β) :
    ∀ (l : List α), (∀ x ∈ l, f x = [g x]) → l.flatMap f = l.map g := by
  intro l
  induction l with
  | nil => intro _; rfl
  | cons a t ih =>
    intro h
    simp only [List.flatMap_cons, List.map_cons, h a (by simp),
      ih (fun x hx => h x (by simp [hx]))]
    rfl

/-- C4 counterexample: two btrfs subvolumes set up in the order
home-then-data are unmounted in that same order, not in reverse. -/
theorem btrfs_subvolumes_unmount_forward :
    unmountSubvolumesCmds 0 "/mnt"
        [⟨"home", "/home", "defaults", true⟩, ⟨"data", "/data", "defaults", true⟩] =
      Except.ok ["/mnt/home", "/mnt/data"]
    ∧ ["/mnt/home", "/mnt/data"] ≠ ["/mnt/data", "/mnt/home"] := by
  refine ⟨rfl, by decide⟩

/-- C4 (amended): chroot teardown unmounts the bind-mount set in the exact
reverse of the setup order; a btrfs mount unmounts its subvolumes before
the base mount but in the same (creation) order, not in reverse. -/
theorem teardown_unmount_order (env : ChrootEnv) (ms : List BindMount)
    (mountdir : String) (svs : List Subvolume)
    (hf : env.fuserLock = false) (hms : ∀ b ∈ ms, bindIsMounted env b = true)
    (hsv : ∀ sv ∈ svs, sv.mounted = true ∧ sv.mountpoint ≠ "/") :
    bind_unmount env ms = ms.reverse.map BindMount.dest
    ∧ btrfsUnmountCmds 0 mountdir true svs =
        Except.ok (svs.map (fun sv => mountdir ++ sv.mountpoint) ++ [mountdir]) := by
  constructor
  · unfold bind_unmount
    refine flatMap_eq_map_of_singleton _ _ ms.reverse (fun b hb => ?_)
    have hbm : bindIsMounted env b = true := hms b (List.mem_reverse.mp hb)
    simp [bindUnmountCmds, hf, hbm]
  · unfold btrfsUnmountCmds unmountSubvolumesCmds
    rw [unmountSubvolStep_fold_ok mountdir svs [] hsv]
    simp

/-- C4 witness: three bind mounts and two subvolumes. -/
theorem teardown_unmount_order_witness :
    bind_unmount ⟨false, ["/r/proc", "/r/sys", "/r/dev"]⟩
        [⟨"/proc", "/r/proc"⟩, ⟨"/sys", "/r/sys"⟩, ⟨"/dev", "/r/dev"⟩] =
      ["/r/dev", "/r/sys", "/r/proc"]
    ∧ btrfsUnmountCmds 0 "/mnt" true
        [⟨"home", "/home", "defaults", true⟩, ⟨"data", "/data", "defaults", true⟩] =
      Except.ok ["/mnt/home", "/mnt/data", "/mnt"] := by
  have h := teardown_unmount_order ⟨false, ["/r/proc", "/r/sys", "/r/dev"]⟩
    [⟨"/proc", "/r/proc"⟩, ⟨"/sys", "/r/sys"⟩, ⟨"/dev", "/r/dev"⟩] "/mnt"
    [⟨"home", "/home", "defaults", true⟩, ⟨"data", "/data", "defaults", true⟩]
    rfl (by decide) (by decide)
  simpa using h

/-! ## LoopDevice id allocation (fs_related.py lines 1047-1104) -/

/-- Decimal value of a digit string, as `int()` computes it. -/
def digitsToNat (cs : List Char) : Nat :=
  cs.foldl (fun n c => 10 * n + (c.toNat - 48)) 0

/-- Python `s.isdigit() and int(s) or 0` for an ASCII string `s`:
`isdigit` is true for a non-empty all-digit string. -/
def parseDigits (cs : List Char) : Nat :=
  if cs ≠ [] ∧ cs.all (fun c => c.isDigit) then digitsToNat cs else 0

/-- The lambda `fint` in `LoopDevice._genloopid` (line 1060):
`x[9:].isdigit() and int(x[9:]) or 0` — the value of the digits after
`/dev/loop`, or 0 when the suffix is not a digit string (the character
slice `[9:]` is `List.drop 9` on the characters). -/
def fint (x : String) : Nat := parseDigits (x.data.drop 9)

/-- Core of `_genloopid` after parsing (lines 1061-1064):
`maxid = 1 + max(ids below 100)` (a `ValueError` on an empty sequence),
floored at 10, and a bare `raise` when the result reaches 100. -/
def genloopidRaw (ids : List Nat) : Except String Nat :=
  match ids with
  | [] => Except.error "ValueError: max() arg is an empty sequence"
  | i :: rest =>
    if 1 + List.foldl max i rest < 10 then Except.ok 10
    else if 100 ≤ 1 + List.foldl max i rest then
      Except.error "RuntimeError: no active exception to re-raise"
    else Except.ok (1 + List.foldl max i rest)

/-- `LoopDevice._genloopid` (lines 1058-1064) over the glob results. -/
def genloopid (files : List String) : Except String Nat :=
  genloopidRaw ((files.map fint).filter (fun x => x < 100))

structure LoopEnv where
  files : List String
  devNodes : List String
  attached : List String
  mknodOk : Bool
  deriving Repr, DecidableEq

/-- `LoopDevice.create` (lines 1086-1104): generate an id when none was
given (`if not self.loopid` — `None` and `0` are falsy), then: if the
device node exists and `losetup -a` lists it, raise `MountError("Device
busy")`; if it exists unattached, reuse it; otherwise `mknod` it (raising
`MountError` on failure). -/
def loopDeviceCreate (env : LoopEnv) (loopidArg : Option Nat) : Except String Nat :=
  match (match loopidArg with
         | some i => if i = 0 then genloopid env.files else Except.ok i
         | none => genloopid env.files) with
  | Except.error e => Except.error e
  | Except.ok loopid =>
    if env.devNodes.contains ("/dev/loop" ++ toString loopid) then
      if env.attached.contains ("/dev/loop" ++ toString loopid) then
        Except.error ("Device busy: /dev/loop" ++ toString loopid)
      else Except.ok loopid
    else
      if env.mknodOk then Except.ok loopid
      else Except.error ("Failed to create device /dev/loop" ++ toString loopid)

theorem foldl_max_init_le : ∀ (l : List Nat) (a : Nat), a ≤ l.foldl max a := by
  intro l
  induction l with
  | nil => intro a; simp
  | cons b t ih => intro a; exact le_trans (Nat.le_max_left a b) (ih (max a b))

theorem mem_le_foldl_max : ∀ (l : List Nat) (a x : Nat), x ∈ l → x ≤ l.foldl max a := by
  intro l
  induction l with
  | nil => intro a x hx; cases hx
  | cons b t ih =>
    intro a x hx
    rcases List.mem_cons.mp hx with h | h
    · subst h
      exact le_trans (Nat.le_max_right a x) (foldl_max_init_le t (max a x))
    · exact ih (max a b) x h

/-- C6: the id-generation path only ever returns ids in `[10, 100)`; once
`/dev/loop99` exists (in particular when every id below 100 is taken),
`_genloopid` fails with an exception instead of wrapping around; and when
the generated device node exists and `losetup -a` reports it attached,
`create` fails with a deterministic "Device busy" error. -/
theorem loop_allocator_bounds :
    (∀ files id, genloopid files = Except.ok id → 10 ≤ id ∧ id < 100)
    ∧ (∀ files, "/dev/loop99" ∈ files → ∃ e, genloopid files = Except.error e)
    ∧ (∀ env id, genloopid env.files = Except.ok id →
        env.devNodes.contains ("/dev/loop" ++ toString id) = true →
        env.attached.contains ("/dev/loop" ++ toString id) = true →
        loopDeviceCreate env none =
          Except.error ("Device busy: /dev/loop" ++ toString id)) := by
  refine ⟨?_, ?_, ?_⟩
  · intro files id h
    unfold genloopid at h
    rcases hl : (files.map fint).filter (fun x => x < 100) with _ | ⟨i, rest⟩ <;>
      rw [hl] at h <;> simp only [genloopidRaw] at h
    · cases h
    · split_ifs at h with h10 h100 <;> cases h <;> omega
  · intro files hmem
    have h99 : (99 : Nat) ∈ (files.map fint).filter (fun x => x < 100) := by
      apply List.mem_filter.mpr
      refine ⟨?_, by decide⟩
      have hf : fint "/dev/loop99" = 99 := by decide
      exact hf ▸ List.mem_map_of_mem fint hmem
    rcases hl : (files.map fint).filter (fun x => x < 100) with _ | ⟨i, rest⟩
    · rw [hl] at h99; cases h99
    · rw [hl] at h99
      have hfold : 99 ≤ List.foldl max i rest := by
        rcases List.mem_cons.mp h99 with h | h
        · exact h ▸ foldl_max_init_le rest i
        · exact mem_le_foldl_max rest i 99 h
      have h10 : ¬ (1 + List.foldl max i rest < 10) := by omega
      have h100 : 100 ≤ 1 + List.foldl max i rest := by omega
      refine ⟨"RuntimeError: no active exception to re-raise", ?_⟩
      unfold genloopid
      rw [hl]
      simp only [genloopidRaw]
      rw [if_neg h10, if_pos h100]
  · intro env id h hdev hatt
    have hdev2 : ("/dev/loop" ++ toString id) ∈ env.devNodes := by simpa using hdev
    have hatt2 : ("/dev/loop" ++ toString id) ∈ env.attached := by simpa using hatt
    simp [loopDeviceCreate, h, hdev2, hatt2]

/-- C6 witness. -/
theorem loop_allocator_bounds_witness :
    (10 ≤ 10 ∧ 10 < 100)
    ∧ (∃ e, genloopid ["/dev/loop99"] = Except.error e)
    ∧ loopDeviceCreate ⟨["/dev/loop0"], ["/dev/loop10"], ["/dev/loop10"], true⟩ none =
        Except.error ("Device busy: /dev/loop" ++ toString 10) :=
  ⟨loop_allocator_bounds.1 ["/dev/loop0"] 10 rfl,
   loop_allocator_bounds.2.1 ["/dev/loop99"] (by decide),
   loop_allocator_bounds.2.2 ⟨["/dev/loop0"], ["/dev/loop10"], ["/dev/loop10"], true⟩ 10
     rfl (by decide) (by decide)⟩

/-! ## Filesystem label handling

`ExtDiskMount.__init__` (line 424), `VfatDiskMount.__init__` (line 533)
and `BtrfsDiskMount.__init__` (line 624) all store
`fslabel.replace("/", "")`; none truncates.  The only truncation is
`LoopImageCreator.__set_fslabel` (imager/loop.py lines 215-219):
`val[:FSLABEL_MAXLEN]` with `FSLABEL_MAXLEN = 32` (line 31), applied
whatever the filesystem type. -/

/-- The label stored by the ext/vfat/btrfs mount constructors:
`fslabel.replace("/", "")` — replacing the single character "/" by the
empty string is exactly filtering it out. -/
def mountFslabel (fslabel : String) : String :=
  ⟨fslabel.data.filter (fun c => c ≠ '/')⟩

def FSLABEL_MAXLEN : Nat := 32

/-- `LoopImageCreator.__set_fslabel` on a non-None value:
`val[:FSLABEL_MAXLEN]`. -/
def setFslabel (val : String) : String :=
  ⟨val.data.take FSLABEL_MAXLEN⟩

/-- C7 counterexample: a 40-character label assigned to an ext mount is
stored with all 40 characters, not truncated to 16. -/
theorem ext_label_not_truncated :
    (mountFslabel "0123456789abcdef0123456789abcdef01234567").length = 40
    ∧ (40 : Nat) ≠ 16 := by
  exact ⟨by decide, by decide⟩

/-- C7 (amended): the ext, vfat and btrfs mount constructors store the
label unchanged apart from removing "/" characters — no length truncation
at all (a 40-character label stays 40 characters); the only truncation is
the creator-level `fslabel` property, which truncates to 32 characters for
every filesystem type and stores labels of at most 32 characters
unchanged. -/
theorem fslabel_handling (l : String) (h : Char.ofNat 47 ∉ l.data) :
    mountFslabel l = l
    ∧ (setFslabel l).length = min FSLABEL_MAXLEN l.length
    ∧ (l.length ≤ FSLABEL_MAXLEN → setFslabel l = l) := by
  refine ⟨?_, ?_, ?_⟩
  · cases l with
    | mk data =>
      show String.mk (data.filter _) = String.mk data
      congr 1
      apply List.filter_eq_self.mpr
      intro a ha
      have : a ≠ '/' := fun he => h (he ▸ ha)
      simpa using this
  · cases l with
    | mk data =>
      show (data.take FSLABEL_MAXLEN).length = min FSLABEL_MAXLEN data.length
      exact List.length_take _ _
  · intro hle
    cases l with
    | mk data =>
      show String.mk (data.take FSLABEL_MAXLEN) = String.mk data
      congr 1
      exact List.take_of_length_le hle

/-- C7 witness: a 12-character slash-free label. -/
theorem fslabel_handling_witness :
    mountFslabel "mic_test_lbl" = "mic_test_lbl"
    ∧ (setFslabel "mic_test_lbl").length = min FSLABEL_MAXLEN "mic_test_lbl".length
    ∧ ("mic_test_lbl".length ≤ FSLABEL_MAXLEN → setFslabel "mic_test_lbl" = "mic_test_lbl") :=
  fslabel_handling "mic_test_lbl" (by decide)

/-! ## DeviceMapperSnapshot (fs_related.py lines 924-996) -/

inductive DMErr
  | snapshotError (msg : String)
  | indexError
  deriving Repr, DecidableEq

structure SnapState where
  created : Bool
  imgDevice : Option Nat
  cowDevice : Option Nat
  deriving Repr, DecidableEq

structure SnapEnv where
  imgDev : Nat
  cowDev : Nat
  dmsetupCreateRC : Nat
  deriving Repr, DecidableEq

/-- `DeviceMapperSnapshot.create` (lines 942-964): no-op when already
created; binds both loop devices (`LoopbackDisk.create` keeps an existing
binding), then runs `dmsetup create`; on a non-zero return code it calls
`cowloop.cleanup()` and `imgloop.cleanup()` (releasing both bindings) and
raises `SnapshotError`.  The raised error carries the post-cleanup state. -/
def snapshotCreate (env : SnapEnv) (st : SnapState) :
    Except (DMErr × SnapState) SnapState :=
  if st.created then Except.ok st
  else
    let imgD := st.imgDevice.getD env.imgDev
    let cowD := st.cowDevice.getD env.cowDev
    if env.dmsetupCreateRC = 0 then
      Except.ok ⟨true, some imgD, some cowD⟩
    else
      Except.error (DMErr.snapshotError "Could not create snapshot device",
                    ⟨false, none, none⟩)

/-- Python `str.split()` with no argument: tokens separated by runs of
whitespace, no empty tokens. -/
def wsTokensAux : List Char → List Char → List (List Char)
  | [], acc => if acc = [] then [] else [acc.reverse]
  | c :: cs, acc =>
    if c.isWhitespace then
      if acc = [] then wsTokensAux cs []
      else acc.reverse :: wsTokensAux cs []
    else wsTokensAux cs (c :: acc)

def pySplitWs (s : String) : List String :=
  (wsTokensAux s.data []).map String.mk

/-- `t.split('/')[0]`: the characters before the first `/`. -/
def beforeSlash (t : String) : String :=
  String.mk (t.data.takeWhile (fun c => c ≠ '/'))

/-- Python `int(s)`: optional surrounding whitespace, optional sign,
then a non-empty digit string; anything else raises `ValueError`
(modelled as `none`). -/
def pyInt? (s : String) : Option Int :=
  match (s.data.dropWhile Char.isWhitespace).reverse.dropWhile Char.isWhitespace
        |>.reverse with
  | '-' :: ds =>
    if ds ≠ [] ∧ ds.all Char.isDigit then some (-(digitsToNat ds : Int)) else none
  | '+' :: ds =>
    if ds ≠ [] ∧ ds.all Char.isDigit then some ((digitsToNat ds : Int)) else none
  | ds =>
    if ds ≠ [] ∧ ds.all Char.isDigit then some ((digitsToNat ds : Int)) else none

/-- `DeviceMapperSnapshot.get_cow_used` (lines 981-996): 0 when not
created; otherwise parses `out.split()[3].split('/')[0]` as an integer and
returns it times 512.  Only a `ValueError` from `int()` is caught and
re-raised as `SnapshotError`; fewer than 4 whitespace-separated fields
make `out.split()[3]` raise an uncaught `IndexError`. -/
def get_cow_used (created : Bool) (out : String) : Except DMErr Int :=
  if created = false then Except.ok 0
  else
    match (pySplitWs out)[3]? with
    | none => Except.error DMErr.indexError
    | some t =>
      match pyInt? (beforeSlash t) with
      | none =>
        Except.error (DMErr.snapshotError ("Failed to parse dmsetup status: " ++ out))
      | some c => Except.ok (c * 512)

/-- C8 counterexample: the status string "0 8388608 snapshot" cannot be
parsed as "A B snapshot C/D", and `get_cow_used` raises an uncaught
`IndexError` from `out.split()[3]`, not the typed `SnapshotError` the
claim requires. -/
theorem get_cow_used_short_status :
    get_cow_used true "0 8388608 snapshot" = Except.error DMErr.indexError
    ∧ (Except.error DMErr.indexError : Except DMErr Int) ≠
        Except.error (DMErr.snapshotError
          ("Failed to parse dmsetup status: " ++ "0 8388608 snapshot")) := by
  refine ⟨rfl, fun h => ?_⟩
  exact DMErr.noConfusion (Except.error.inj h)

/-- C8 (amended): a failed `dmsetup create` releases both the image and
COW loop bindings before raising a typed `SnapshotError`; a status whose
4th whitespace field exists but whose part before "/" is not an integer
raises a typed `SnapshotError` (never returns 0); a status with fewer than
4 fields, however, raises an uncaught `IndexError`; a well-formed status
returns C * 512. -/
theorem dmsnapshot_error_handling :
    (∀ env st, st.created = false → env.dmsetupCreateRC ≠ 0 →
      snapshotCreate env st =
        Except.error (DMErr.snapshotError "Could not create snapshot device",
                      ⟨false, none, none⟩))
    ∧ (∀ out, (pySplitWs out).length < 4 →
        get_cow_used true out = Except.error DMErr.indexError)
    ∧ (∀ out t, (pySplitWs out)[3]? = some t → pyInt? (beforeSlash t) = none →
        get_cow_used true out =
          Except.error (DMErr.snapshotError ("Failed to parse dmsetup status: " ++ out)))
    ∧ get_cow_used true "0 8388608 snapshot 416/1048576" = Except.ok (416 * 512) := by
  refine ⟨?_, ?_, ?_, rfl⟩
  · intro env st hc hrc
    simp [snapshotCreate, hc, hrc]
  · intro out hlen
    have hnone : (pySplitWs out)[3]? = none := by
      rw [List.getElem?_eq_none_iff]
      omega
    simp [get_cow_used, hnone]
  · intro out t ht hp
    simp [get_cow_used, ht, hp]

/-- C8 witness. -/
theorem dmsnapshot_error_handling_witness :
    snapshotCreate ⟨7, 8, 1⟩ ⟨false, none, none⟩ =
      Except.error (DMErr.snapshotError "Could not create snapshot device",
                    ⟨false, none, none⟩)
    ∧ get_cow_used true "oops" = Except.error DMErr.indexError
    ∧ get_cow_used true "0 8388608 snapshot x/y" =
        Except.error (DMErr.snapshotError ("Failed to parse dmsetup status: " ++
          "0 8388608 snapshot x/y")) :=
  ⟨dmsnapshot_error_handling.1 ⟨7, 8, 1⟩ ⟨false, none, none⟩ rfl (by decide),
   dmsnapshot_error_handling.2.1 "oops" (by decide),
   dmsnapshot_error_handling.2.2.1 "0 8388608 snapshot x/y" "x/y" rfl rfl⟩

/-! ## my_fuser (fs_related.py lines 91-106) -/

structure FuserEnv where
  fileExists : Bool
  fuserSilentRC : Nat
  holderCmdlines : List String
  deriving Repr, DecidableEq

/-- `my_fuser(fp)`: `False` when the file does not exist; when
`fuser -s fp` exits 0, reads `/proc/<pid>/cmdline` for every reported pid
and returns `True` iff one of them, minus its trailing byte
(`cmdline[:-1]`), equals "/bin/bash"; otherwise `False`. -/
def my_fuser (env : FuserEnv) : Bool :=
  if env.fileExists = false then false
  else if env.fuserSilentRC = 0 then
    env.holderCmdlines.any (fun c => String.mk c.data.dropLast = "/bin/bash")
  else false

/-- C10: `my_fuser` returns true exactly when the file exists, `fuser -s`
reports it open, and some holding process has cmdline "/bin/bash" (up to
the trailing NUL byte); in particular a file held only by processes with
any other command line yields false. -/
theorem my_fuser_spec (env : FuserEnv) :
    my_fuser env = true ↔
      (env.fileExists = true ∧ env.fuserSilentRC = 0
       ∧ ∃ c ∈ env.holderCmdlines, String.mk c.data.dropLast = "/bin/bash") := by
  unfold my_fuser
  rcases henv : env.fileExists with _ | _
  · simp [henv]
  · by_cases hrc : env.fuserSilentRC = 0
    · simp [henv, hrc, List.any_eq_true]
    · simp [henv, hrc]

/-- C10 witness: a lock held by a "/bin/bash" process (among others)
counts as an active chroot session; one held only by a python process does
not. -/
theorem my_fuser_spec_witness :
    my_fuser ⟨true, 0, ["/bin/sh\x00", "/bin/bash\x00"]⟩ = true
    ∧ my_fuser ⟨true, 0, ["/usr/bin/python3\x00"]⟩ = false :=
  ⟨(my_fuser_spec ⟨true, 0, ["/bin/sh\x00", "/bin/bash\x00"]⟩).mpr
     ⟨rfl, rfl, "/bin/bash\x00", by decide, by decide⟩,
   by decide⟩

/-! ## Btrfs subvolume metadata sidecar (fs_related.py lines 635-658 and
708-736) -/

/-- Python `line.endswith(sfx)`. -/
def pyEndsWith (line sfx : String) : Bool :=
  if sfx.data.length ≤ line.data.length then
    decide (line.data.drop (line.data.length - sfx.data.length) = sfx.data)
  else false

/-- Python `s.split(sep)` for a one-character separator (empty pieces are
kept). -/
def splitCharAux (sep : Char) : List Char → List Char → List (List Char)
  | [], acc => [acc.reverse]
  | c :: cs, acc =>
    if c = sep then acc.reverse :: splitCharAux sep cs []
    else splitCharAux sep cs (c :: acc)

def splitChar (sep : Char) (s : String) : List String :=
  (splitCharAux sep s.data []).map String.mk

/-- Python `s.splitlines()` for newline-separated text: like splitting on
the newline character, except that a trailing newline does not produce a
final empty line. -/
def pySplitlines (s : String) : List String :=
  if (splitChar (Char.ofNat 10) s).getLast? = some "" then
    (splitChar (Char.ofNat 10) s).dropLast
  else splitChar (Char.ofNat 10) s

/-- `BtrfsDiskMount.__create_subvolume_metadata` (lines 708-736): for each
declared subvolume, every `btrfs subvolume list` output line ending in
" path <name>" contributes one line
`<id>\t<name>\t<mountpoint>\t<fsopts>\n` to the sidecar content, where
`<id>` is `line.split()[1]` (a `MountError` if not a digit string).
Returns the content written to `<lofile>.subvolume_metadata` (the file is
only written when the content is non-empty; with no subvolumes the method
returns before running anything). -/
def createSubvolumeMetadata (svs : List Subvolume) (subvolidItems : List String) :
    Except String String :=
  if svs.length = 0 then Except.ok ""
  else
    svs.foldlM (fun md sv =>
      subvolidItems.foldlM (fun md2 line =>
        if pyEndsWith line (" path " ++ sv.subvol) then
          match (pySplitWs line)[1]? with
          | none => Except.error "IndexError: list index out of range"
          | some subvolid =>
            if subvolid.data ≠ [] ∧ subvolid.data.all Char.isDigit then
              Except.ok (md2 ++ toString (digitsToNat subvolid.data) ++ "\t"
                ++ sv.subvol ++ "\t" ++ sv.mountpoint ++ "\t" ++ sv.fsopts ++ "\n")
            else Except.error ("Invalid subvolume id: " ++ subvolid)
        else Except.ok md2) md) ""

/-- `BtrfsDiskMount.__get_subvolume_metadata` (lines 635-658) on an
existing sidecar file with the given content: for every line that splits
on tabs into exactly 4 items the method builds a dict whose `'disk'` entry
evaluates `p['disk']` — but no variable `p` exists in this method, so the
first well-formed line raises `NameError`. -/
def getSubvolumeMetadata (content : String) : Except String Unit :=
  if (pySplitlines content).any (fun l => (splitChar (Char.ofNat 9) l).length == 4) then
    Except.error "NameError: name p is not defined"
  else Except.ok ()

/-- C9: writing the subvolume metadata for the two subvolumes
(256, "home", "/home", "defaults") and (257, "root", "/", "noatime")
produces the expected tab-separated sidecar content, but reading that very
content back does not reproduce the four-tuples: the read path evaluates
the undefined variable `p` on the first 4-field line and raises
`NameError`. -/
theorem subvolume_metadata_roundtrip_bug :
    createSubvolumeMetadata
        [⟨"home", "/home", "defaults", true⟩, ⟨"root", "/", "noatime", true⟩]
        ["ID 256 gen 30 top level 5 path home", "ID 257 gen 31 top level 5 path root"] =
      Except.ok "256\thome\t/home\tdefaults\n257\troot\t/\tnoatime\n"
    ∧ getSubvolumeMetadata "256\thome\t/home\tdefaults\n257\troot\t/\tnoatime\n" =
        Except.error "NameError: name p is not defined" :=
  ⟨rfl, rfl⟩

end Mic
